import Mathlib

/-!
Shallow embedding of the `ShaderCache` component
(src/shader_cache.hpp, src/shader_cache.cpp).

Modelling conventions:
  * C++ scoped enums are wrapped integer codes (a `static_cast` can produce a
    value outside the declared enumerators, and the repository's lookups are
    written to handle such absent keys), with one named constant per declared
    enumerator, numbered in declaration order as the C++ compiler does.
  * `std::unordered_map` members are association lists; `find`/`at` is first
    match (`lookupTable`), and `insert` adds an entry only when the key is
    absent (`mapInsert`), exactly as `std::unordered_map::insert` behaves.
  * OpenGL and the filesystem are external: driver outputs (`glCreateProgram`
    ids, `glGetUniformLocation` / `glGetAttribLocation` results, active
    uniform enumeration) are parameters, and every driver call or log line the
    wrapper issues is recorded in an `Event` trace in program order.  Uniform
    value payloads (glm vectors and matrices) are opaque type parameters; the
    trace records which upload call was made and at which location.
  * A C++ function that can throw returns `Except String`; a thrown exception
    carries its message, `std::out_of_range` rethrown from `at` is modelled as
    the error value "out_of_range".  Functions whose GL side effects happen
    before a potential throw return the trace next to the `Except` so that the
    effects are not lost on the error path.
-/

set_option autoImplicit false

/-- Enum class ShaderType (shader_cache.hpp lines 11-19), as its underlying
integer code. -/
structure ShaderType where
  code : Nat
deriving DecidableEq, Repr

def ShaderType.CWL_V_TRANSFORMATION_WITH_SOLID_COLOR : ShaderType := ⟨0⟩

def ShaderType.CWL_V_TRANSFORMATION_WITH_TEXTURES : ShaderType := ⟨1⟩

def ShaderType.CWL_V_TRANSFORMATION_WITH_TEXTURES_AMBIENT_LIGHTING : ShaderType := ⟨2⟩

def ShaderType.CWL_V_TRANSFORMATION_WITH_TEXTURES_AMBIENT_AND_DIFFUSE_LIGHTING : ShaderType := ⟨3⟩

def ShaderType.SKYBOX : ShaderType := ⟨4⟩

def ShaderType.ABSOLUTE_POSITION_WITH_SOLID_COLOR : ShaderType := ⟨5⟩

def ShaderType.TEXT : ShaderType := ⟨6⟩

/-- Enum class ShaderVertexAttributeVariable (shader_cache.hpp lines 21-26). -/
structure ShaderVertexAttributeVariable where
  code : Nat
deriving DecidableEq, Repr

def ShaderVertexAttributeVariable.POSITION : ShaderVertexAttributeVariable := ⟨0⟩

def ShaderVertexAttributeVariable.XY_POSITION : ShaderVertexAttributeVariable := ⟨1⟩

def ShaderVertexAttributeVariable.PASSTHROUGH_TEXTURE_COORDINATE : ShaderVertexAttributeVariable := ⟨2⟩

def ShaderVertexAttributeVariable.PASSTHROUGH_NORMAL : ShaderVertexAttributeVariable := ⟨3⟩

/-- Enum class ShaderUniformVariable (shader_cache.hpp lines 28-43). -/
structure ShaderUniformVariable where
  code : Nat
deriving DecidableEq, Repr

def ShaderUniformVariable.CAMERA_TO_CLIP : ShaderUniformVariable := ⟨0⟩

def ShaderUniformVariable.WORLD_TO_CAMERA : ShaderUniformVariable := ⟨1⟩

def ShaderUniformVariable.LOCAL_TO_WORLD : ShaderUniformVariable := ⟨2⟩

def ShaderUniformVariable.SKYBOX_TEXTURE_UNIT : ShaderUniformVariable := ⟨3⟩

def ShaderUniformVariable.TEXT_TEXTURE_UNIT : ShaderUniformVariable := ⟨4⟩

def ShaderUniformVariable.COLOR : ShaderUniformVariable := ⟨5⟩

def ShaderUniformVariable.RGB_COLOR : ShaderUniformVariable := ⟨6⟩

def ShaderUniformVariable.RGBA_COLOR : ShaderUniformVariable := ⟨7⟩

def ShaderUniformVariable.AMBIENT_LIGHT_STRENGTH : ShaderUniformVariable := ⟨8⟩

def ShaderUniformVariable.AMBIENT_LIGHT_COLOR : ShaderUniformVariable := ⟨9⟩

def ShaderUniformVariable.DIFFUSE_LIGHT_POSITION : ShaderUniformVariable := ⟨10⟩

/-- OpenGL enum constant GL_FLOAT (0x1406). -/
def GL_FLOAT : Nat := 5126

/-- OpenGL enum constant GL_INT (0x1404). -/
def GL_INT : Nat := 5124

/-- OpenGL enum constant GL_UNSIGNED_INT (0x1405). -/
def GL_UNSIGNED_INT : Nat := 5125

/-- OpenGL enum constant GL_VERTEX_SHADER (0x8B31). -/
def GL_VERTEX_SHADER : Nat := 35633

/-- OpenGL enum constant GL_FRAGMENT_SHADER (0x8B30). -/
def GL_FRAGMENT_SHADER : Nat := 35632

/-- OpenGL enum constant GL_GEOMETRY_SHADER (0x8DD9). -/
def GL_GEOMETRY_SHADER : Nat := 36313

/-- struct ShaderCreationInfo (shader_cache.hpp lines 45-49); an omitted
geometry path default-constructs to the empty string. -/
structure ShaderCreationInfo where
  vertex_path : String
  fragment_path : String
  geometry_path : String
deriving DecidableEq, Repr

/-- struct ShaderProgramInfo (shader_cache.hpp lines 51-55): the native
handle of a linked program. -/
structure ShaderProgramInfo where
  id : Nat
deriving DecidableEq, Repr

/-- struct GLVertexAttributeConfiguration (shader_cache.hpp lines 57-63);
GLboolean as Bool, the start-of-data pointer as its numeric value. -/
structure GLVertexAttributeConfiguration where
  components_per_vertex : Int
  data_type_of_component : Nat
  normalize : Bool
  stride : Int
  pointer_to_start_of_data : Nat
deriving DecidableEq, Repr

/-- First-match lookup over an association list: `std::unordered_map::find`
(and `at`, whose throwing absent case the callers handle), given that
duplicate `insert`s keep the first entry. -/
def lookupTable {α β : Type} [DecidableEq α] (m : List (α × β)) (key : α) : Option β :=
  (m.find? (fun p => decide (p.1 = key))).map (fun p => p.2)

/-- `std::unordered_map::insert`: adds the pair only when the key is absent;
an existing entry is kept, never overwritten. -/
def mapInsert {α β : Type} [DecidableEq α] (m : List (α × β)) (key : α) (val : β) :
    List (α × β) :=
  if (lookupTable m key).isSome then m else m ++ [(key, val)]

/-- One trace entry: a call the wrapper issues into the GL driver, or a line
written through the logger / stdio.  Uniform value payloads are not recorded;
the upload call made and its location argument are. -/
inductive Event where
  | logInfo (msg : String)
  | logWarn (msg : String)
  | logError (msg : String)
  | stderrPrint (msg : String)
  | stdoutPrint (msg : String)
  | createProgram (id : Nat)
  | attachShaderStage (program : Nat) (path : String) (shader_kind : Nat) (shader : Nat)
  | linkProgram (program : Nat)
  | deleteShader (shader : Nat)
  | useProgram (id : Nat)
  | getUniformLocation (program : Nat) (name : String)
  | uniform1i (location : Int)
  | uniform1f (location : Int)
  | uniform2fv (location : Int)
  | uniform2f (location : Int)
  | uniform3fv (location : Int)
  | uniform3f (location : Int)
  | uniform4fv (location : Int) (count : Nat)
  | uniform4f (location : Int)
  | uniformMatrix2fv (location : Int)
  | uniformMatrix3fv (location : Int)
  | uniformMatrix4fv (location : Int)
  | bindVertexArray (vao : Nat)
  | bindBuffer (vbo : Nat)
  | enableVertexAttribArray (location : Int)
  | vertexAttribPointer (location : Int) (components : Int) (dtype : Nat)
      (normalize : Bool) (stride : Int) (ptr : Nat)
  | vertexAttribIPointer (location : Int) (components : Int) (dtype : Nat)
      (stride : Int) (ptr : Nat)
deriving DecidableEq, Repr

/-- The mutable and configuration state of one ShaderCache object: the
created-shaders map plus the five member tables (shader_cache.hpp lines
117-197).  The .cpp reaches the same tables through a `shader_standard`
aggregate; the member initializers in the header give their contents. -/
structure CacheState where
  created_shaders : List (ShaderType × ShaderProgramInfo)
  shader_vertex_attribute_to_glva_configuration :
    List (ShaderVertexAttributeVariable × GLVertexAttributeConfiguration)
  shader_uniform_variable_to_name : List (ShaderUniformVariable × String)
  shader_catalog : List (ShaderType × ShaderCreationInfo)
  shader_to_used_vertex_attribute_variables :
    List (ShaderType × List ShaderVertexAttributeVariable)
  shader_vertex_attribute_variable_to_name : List (ShaderVertexAttributeVariable × String)
deriving DecidableEq, Repr

/-- The state every ShaderCache starts from: empty created-shaders map, the
five tables exactly as initialized in shader_cache.hpp (including the
duplicated TEXT catalog entry, which `insert` semantics collapse to the
first occurrence). -/
def memberInitState : CacheState where
  created_shaders := []
  shader_vertex_attribute_to_glva_configuration :=
    [(ShaderVertexAttributeVariable.POSITION, ⟨3, GL_FLOAT, false, 0, 0⟩),
     (ShaderVertexAttributeVariable.XY_POSITION, ⟨2, GL_FLOAT, false, 0, 0⟩),
     (ShaderVertexAttributeVariable.PASSTHROUGH_NORMAL, ⟨3, GL_FLOAT, false, 0, 0⟩),
     (ShaderVertexAttributeVariable.PASSTHROUGH_TEXTURE_COORDINATE, ⟨2, GL_FLOAT, false, 0, 0⟩)]
  shader_uniform_variable_to_name :=
    [(ShaderUniformVariable.CAMERA_TO_CLIP, "camera_to_clip"),
     (ShaderUniformVariable.WORLD_TO_CAMERA, "world_to_camera"),
     (ShaderUniformVariable.LOCAL_TO_WORLD, "local_to_world"),
     (ShaderUniformVariable.SKYBOX_TEXTURE_UNIT, "skybox_texture_unit"),
     (ShaderUniformVariable.TEXT_TEXTURE_UNIT, "text_texture_unit"),
     (ShaderUniformVariable.COLOR, "color"),
     (ShaderUniformVariable.RGB_COLOR, "rgb_color"),
     (ShaderUniformVariable.RGBA_COLOR, "rgba_color"),
     (ShaderUniformVariable.AMBIENT_LIGHT_COLOR, "ambient_light_color"),
     (ShaderUniformVariable.AMBIENT_LIGHT_STRENGTH, "ambient_light_strength"),
     (ShaderUniformVariable.DIFFUSE_LIGHT_POSITION, "diffuse_light_position")]
  shader_catalog :=
    [(ShaderType.CWL_V_TRANSFORMATION_WITH_SOLID_COLOR,
      ⟨"assets/shaders/CWL_v_transformation.vert", "assets/shaders/solid_color.frag", ""⟩),
     (ShaderType.CWL_V_TRANSFORMATION_WITH_TEXTURES,
      ⟨"assets/shaders/CWL_v_transformation_with_texture_coordinate_passthrough.vert",
       "assets/shaders/textured.frag", ""⟩),
     (ShaderType.CWL_V_TRANSFORMATION_WITH_TEXTURES_AMBIENT_LIGHTING,
      ⟨"assets/shaders/CWL_v_transformation_with_texture_coordinate_passthrough.vert",
       "assets/shaders/textured_with_ambient_lighting.frag", ""⟩),
     (ShaderType.CWL_V_TRANSFORMATION_WITH_TEXTURES_AMBIENT_AND_DIFFUSE_LIGHTING,
      ⟨"assets/shaders/CWL_v_transformation_with_texture_coordinate_and_normal_passthrough.vert",
       "assets/shaders/textured_with_ambient_and_diffuse_lighting.frag", ""⟩),
     (ShaderType.SKYBOX, ⟨"assets/shaders/cubemap.vert", "assets/shaders/cubemap.frag", ""⟩),
     (ShaderType.ABSOLUTE_POSITION_WITH_SOLID_COLOR,
      ⟨"assets/shaders/absolute_position.vert", "assets/shaders/solid_color.frag", ""⟩),
     (ShaderType.TEXT, ⟨"assets/shaders/text.vert", "assets/shaders/text.frag", ""⟩),
     (ShaderType.TEXT, ⟨"assets/shaders/text.vert", "assets/shaders/text.frag", ""⟩)]
  shader_to_used_vertex_attribute_variables :=
    [(ShaderType.CWL_V_TRANSFORMATION_WITH_TEXTURES,
      [ShaderVertexAttributeVariable.POSITION,
       ShaderVertexAttributeVariable.PASSTHROUGH_TEXTURE_COORDINATE]),
     (ShaderType.CWL_V_TRANSFORMATION_WITH_SOLID_COLOR,
      [ShaderVertexAttributeVariable.POSITION]),
     (ShaderType.SKYBOX, [ShaderVertexAttributeVariable.POSITION]),
     (ShaderType.ABSOLUTE_POSITION_WITH_SOLID_COLOR,
      [ShaderVertexAttributeVariable.POSITION]),
     (ShaderType.TEXT,
      [ShaderVertexAttributeVariable.XY_POSITION,
       ShaderVertexAttributeVariable.PASSTHROUGH_TEXTURE_COORDINATE])]
  shader_vertex_attribute_variable_to_name :=
    [(ShaderVertexAttributeVariable.POSITION, "position"),
     (ShaderVertexAttributeVariable.XY_POSITION, "xy_position"),
     (ShaderVertexAttributeVariable.PASSTHROUGH_TEXTURE_COORDINATE,
      "passthrough_texture_coordinate"),
     (ShaderVertexAttributeVariable.PASSTHROUGH_NORMAL, "passthrough_normal")]

/-- Modelled from the spec: `shader_type_to_string`, used only for the
not-found error message of get_shader_program, is defined outside src/
(in the generated includes).  Only that the message mentions the type
matters to any property here. -/
def shader_type_to_string (t : ShaderType) : String :=
  "shader_type_" ++ toString t.code

/-- Modelled from the spec: `shader_standard.shader_type_to_name`, read only
by the diagnostic logger, is defined outside src/.  Its content never feeds
back into cache state. -/
def shader_type_to_name (t : ShaderType) : String :=
  "shader_name_" ++ toString t.code

/-- The driver-chosen object ids consumed by one create_shader_program call:
what glCreateProgram and the glCreateShader calls inside attach_shader
return. -/
structure FreshGLIds where
  program : Nat
  vertex_shader : Nat
  fragment_shader : Nat
  geometry_shader : Nat
deriving DecidableEq, Repr

/-- ShaderCache::get_shader_program (shader_cache.cpp lines 34-42): map
lookup, throwing a not-found runtime_error naming the type when absent. -/
def ShaderCache.get_shader_program (s : CacheState) (t : ShaderType) :
    Except String ShaderProgramInfo :=
  match lookupTable s.created_shaders t with
  | some info => .ok info
  | none => .error ("Shader program not found for type: " ++ shader_type_to_string t)

/-- ShaderCache::use_shader_program (shader_cache.cpp lines 44-47): look the
program up, then glUseProgram its handle. -/
def ShaderCache.use_shader_program (s : CacheState) (t : ShaderType) :
    Except String (List Event) :=
  match ShaderCache.get_shader_program s t with
  | .error e => .error e
  | .ok shader_info => .ok [Event.useProgram shader_info.id]

/-- ShaderCache::stop_using_shader_program (shader_cache.cpp line 62). -/
def ShaderCache.stop_using_shader_program : List Event :=
  [Event.useProgram 0]

/-- ShaderCache::create_shader_program (shader_cache.cpp lines 64-95):
catalog lookup (throw when absent, before any side effect), then create /
attach / link through the driver, delete the stage objects, and `insert`
the new handle into created_shaders.  attach_shader (lines 336-368, file
read + compile + attach) is abstracted to one trace entry carrying the
program, source path, stage kind and the driver-chosen shader id. -/
def ShaderCache.create_shader_program (s : CacheState) (t : ShaderType)
    (ids : FreshGLIds) : Except String Unit × CacheState × List Event :=
  match lookupTable s.shader_catalog t with
  | none => (.error "Shader type not found", s, [])
  | some shader_info =>
    let shader_program := ids.program
    let vertex_shader := ids.vertex_shader
    let fragment_shader := ids.fragment_shader
    let geometry_shader := if shader_info.geometry_path = "" then 0 else ids.geometry_shader
    let evs :=
      [Event.logInfo "creating new shader program",
       Event.createProgram shader_program,
       Event.attachShaderStage shader_program shader_info.vertex_path GL_VERTEX_SHADER vertex_shader,
       Event.attachShaderStage shader_program shader_info.fragment_path GL_FRAGMENT_SHADER fragment_shader]
      ++ (if shader_info.geometry_path = "" then []
          else [Event.attachShaderStage shader_program shader_info.geometry_path
                  GL_GEOMETRY_SHADER ids.geometry_shader])
      ++ [Event.linkProgram shader_program,
          Event.deleteShader vertex_shader,
          Event.deleteShader fragment_shader]
      ++ (if geometry_shader = 0 then [] else [Event.deleteShader geometry_shader])
    (.ok (),
     { s with created_shaders := mapInsert s.created_shaders t ⟨shader_program⟩ },
     evs)

/-- ShaderCache::log_shader_program_info (shader_cache.cpp lines 384-393):
log a header, the count, and one line per created shader.  Reads only;
returns the state it was given. -/
def ShaderCache.log_shader_program_info (s : CacheState) : CacheState × List Event :=
  (s,
   [Event.logInfo "Logging Created Shaders:",
    Event.logInfo ("Total shaders: " ++ toString s.created_shaders.length)]
   ++ s.created_shaders.map (fun p =>
        Event.logInfo ("Shader Type: " ++ shader_type_to_name p.1 ++ ", Program ID: "
          ++ toString p.2.id)))

/-- Helper for the constructor loop: create each requested shader in order,
feeding each call the next driver id bundle; a throw from
create_shader_program propagates (the constructor body catches nothing). -/
def ShaderCache.createAll (s : CacheState) (ts : List ShaderType)
    (ids : Nat → FreshGLIds) (k : Nat) : Except String Unit × CacheState × List Event :=
  match ts with
  | [] => (.ok (), s, [])
  | t :: rest =>
    let c := ShaderCache.create_shader_program s t (ids k)
    match c.1 with
    | .error e => (.error e, c.2.1, c.2.2)
    | .ok () =>
      let c2 := ShaderCache.createAll c.2.1 rest ids (k + 1)
      (c2.1, c2.2.1, c.2.2 ++ c2.2.2)

/-- ShaderCache::ShaderCache (shader_cache.cpp lines 15-21): member tables
initialize to memberInitState, then create_shader_program for each requested
type in order, then log_shader_program_info.  A throw escapes the
constructor: no cache object results. -/
def ShaderCache.construct (requested : List ShaderType) (ids : Nat → FreshGLIds) :
    Except String CacheState × List Event :=
  let c := ShaderCache.createAll memberInitState requested ids 0
  match c.1 with
  | .error e => (.error e, c.2.2)
  | .ok () =>
    let lg := ShaderCache.log_shader_program_info c.2.1
    (.ok lg.1, c.2.2 ++ lg.2)

/-- ShaderCache::get_uniform_name (shader_cache.cpp lines 161-169): table
lookup; when the enum key is absent it logs a warning and returns the empty
string — it does not throw. -/
def ShaderCache.get_uniform_name (s : CacheState) (uniform : ShaderUniformVariable) :
    String × List Event :=
  match lookupTable s.shader_uniform_variable_to_name uniform with
  | some name => (name, [])
  | none =>
    ("", [Event.logWarn ("Uniform variable enum " ++ toString uniform.code
            ++ " not found in allowed names.")])

/-- ShaderCache::get_gl_vertex_attribute_configuration_for_vertex_attribute_variable
(shader_cache.cpp lines 171-182): `at` lookup; on std::out_of_range it logs
an error and rethrows. -/
def ShaderCache.get_gl_vertex_attribute_configuration_for_vertex_attribute_variable
    (s : CacheState) (v : ShaderVertexAttributeVariable) :
    Except String GLVertexAttributeConfiguration × List Event :=
  match lookupTable s.shader_vertex_attribute_to_glva_configuration v with
  | some config => (.ok config, [])
  | none =>
    (.error "out_of_range",
     [Event.logError
        "The specified shader vertex attribute variable has no gl vertex attribute configuration"])

/-- ShaderCache::get_used_vertex_attribute_variables_for_shader
(shader_cache.cpp lines 184-195): `at` lookup; on std::out_of_range it logs
an error and rethrows. -/
def ShaderCache.get_used_vertex_attribute_variables_for_shader (s : CacheState)
    (t : ShaderType) : Except String (List ShaderVertexAttributeVariable) × List Event :=
  match lookupTable s.shader_to_used_vertex_attribute_variables t with
  | some vars => (.ok vars, [])
  | none =>
    (.error "out_of_range",
     [Event.logError
        "The specified shader type has no vertex attribute variables, please add some"])

/-- ShaderCache::get_vertex_attribute_variable_name (shader_cache.cpp lines
197-210): `at` lookup; on std::out_of_range it logs an error and rethrows. -/
def ShaderCache.get_vertex_attribute_variable_name (s : CacheState)
    (v : ShaderVertexAttributeVariable) : Except String String × List Event :=
  match lookupTable s.shader_vertex_attribute_variable_to_name v with
  | some name => (.ok name, [])
  | none =>
    (.error "out_of_range",
     [Event.logError "The specified vertex attribute variable has no name in the mapping"])

/-- ShaderCache::get_uniform_location (shader_cache.cpp lines 212-219): look
the program up (throws when absent), resolve the uniform name, ask the driver
(`loc_oracle` stands for glGetUniformLocation); a -1 result is logged as an
error but returned all the same.  The source calls get_uniform_name a second
time to build that log line, so its warning can appear twice. -/
def ShaderCache.get_uniform_location (s : CacheState) (loc_oracle : Nat → String → Int)
    (t : ShaderType) (uniform : ShaderUniformVariable) :
    Except String (Int × List Event) :=
  match ShaderCache.get_shader_program s t with
  | .error e => .error e
  | .ok shader_info =>
    match ShaderCache.get_uniform_name s uniform with
    | (name, evs1) =>
      let location := loc_oracle shader_info.id name
      if location = -1 then
        match ShaderCache.get_uniform_name s uniform with
        | (name2, evs2) =>
          .ok (location,
               evs1 ++ [Event.getUniformLocation shader_info.id name] ++ evs2
               ++ [Event.logError ("Uniform " ++ name2 ++ " not found in shader program.")])
      else
        .ok (location, evs1 ++ [Event.getUniformLocation shader_info.id name])

/-- ShaderCache::print_out_active_uniforms_in_shader (shader_cache.cpp lines
49-60): look the program up (throws when absent), then print one stdout line
per active uniform the driver reports (`num_uniforms`, `uniform_name` stand
for glGetProgramiv / glGetActiveUniform).  Reads only; returns the state it
was given. -/
def ShaderCache.print_out_active_uniforms_in_shader (s : CacheState)
    (num_uniforms : Nat) (uniform_name : Nat → String) (t : ShaderType) :
    Except String Unit × CacheState × List Event :=
  match ShaderCache.get_shader_program s t with
  | .error e => (.error e, s, [])
  | .ok shader_info =>
    (.ok (), s,
     (List.range num_uniforms).map (fun i =>
        Event.stdoutPrint ("Uniform " ++ toString i ++ ": "
          ++ uniform_name i ++ " program " ++ toString shader_info.id)))

/-- ShaderCache::configure_vertex_attributes_for_drawables_vao
(shader_cache.cpp lines 122-159): program lookup (throws when absent), bind
the VAO and VBO, resolve layout and name (either `at` can throw, after the
binds), locate the attribute in the program (`attrib_loc` stands for
glGetAttribLocation), enable it, describe the layout with the integer or
float pointer call, and bind vertex array 0.  The trace is returned next to
the result so the binds survive the throwing paths. -/
def ShaderCache.configure_vertex_attributes_for_drawables_vao (s : CacheState)
    (attrib_loc : Nat → String → Int) (vertex_attribute_object : Nat)
    (vertex_buffer_object : Nat) (t : ShaderType)
    (shader_vertex_attribute_variable : ShaderVertexAttributeVariable) :
    Except String Unit × List Event :=
  match ShaderCache.get_shader_program s t with
  | .error e => (.error e, [])
  | .ok shader_program_info =>
    let evs0 := [Event.bindVertexArray vertex_attribute_object,
                 Event.bindBuffer vertex_buffer_object]
    match ShaderCache.get_gl_vertex_attribute_configuration_for_vertex_attribute_variable
            s shader_vertex_attribute_variable with
    | (.error e, evs1) => (.error e, evs0 ++ evs1)
    | (.ok config, evs1) =>
      match ShaderCache.get_vertex_attribute_variable_name s shader_vertex_attribute_variable with
      | (.error e, evs2) => (.error e, evs0 ++ evs1 ++ evs2)
      | (.ok svav_name, evs2) =>
        let vertex_attribute_location := attrib_loc shader_program_info.id svav_name
        let pointer_evs :=
          if config.data_type_of_component ≠ GL_INT
              ∧ config.data_type_of_component ≠ GL_UNSIGNED_INT then
            [Event.vertexAttribPointer vertex_attribute_location config.components_per_vertex
               config.data_type_of_component config.normalize config.stride
               config.pointer_to_start_of_data]
          else
            [Event.vertexAttribIPointer vertex_attribute_location config.components_per_vertex
               config.data_type_of_component config.stride config.pointer_to_start_of_data]
        (.ok (),
         evs0 ++ evs1 ++ evs2
         ++ [Event.logInfo ("Binding vertex attribute " ++ svav_name),
             Event.enableVertexAttribArray vertex_attribute_location]
         ++ pointer_evs
         ++ [Event.bindVertexArray 0])

/-- ShaderCache::set_uniform bool overload (shader_cache.cpp lines 221-227):
use the program, look the location up, glUniform1i the cast value when the
location is not -1. -/
def ShaderCache.set_uniform_bool (s : CacheState) (loc_oracle : Nat → String → Int)
    (t : ShaderType) (uniform : ShaderUniformVariable) (value : Bool) :
    Except String (List Event) :=
  match ShaderCache.use_shader_program s t with
  | .error e => .error e
  | .ok evs_use =>
    match ShaderCache.get_uniform_location s loc_oracle t uniform with
    | .error e => .error e
    | .ok (location, evs_loc) =>
      .ok (evs_use ++ evs_loc
           ++ (if location ≠ -1 then [Event.uniform1i location] else []))

/-- ShaderCache::set_uniform int overload (shader_cache.cpp lines 229-235). -/
def ShaderCache.set_uniform_int (s : CacheState) (loc_oracle : Nat → String → Int)
    (t : ShaderType) (uniform : ShaderUniformVariable) (value : Int) :
    Except String (List Event) :=
  match ShaderCache.use_shader_program s t with
  | .error e => .error e
  | .ok evs_use =>
    match ShaderCache.get_uniform_location s loc_oracle t uniform with
    | .error e => .error e
    | .ok (location, evs_loc) =>
      .ok (evs_use ++ evs_loc
           ++ (if location ≠ -1 then [Event.uniform1i location] else []))

/-- ShaderCache::set_uniform float overload (shader_cache.cpp lines 237-243);
the float payload is an opaque parameter. -/
def ShaderCache.set_uniform_float {α : Type} (s : CacheState)
    (loc_oracle : Nat → String → Int) (t : ShaderType)
    (uniform : ShaderUniformVariable) (value : α) : Except String (List Event) :=
  match ShaderCache.use_shader_program s t with
  | .error e => .error e
  | .ok evs_use =>
    match ShaderCache.get_uniform_location s loc_oracle t uniform with
    | .error e => .error e
    | .ok (location, evs_loc) =>
      .ok (evs_use ++ evs_loc
           ++ (if location ≠ -1 then [Event.uniform1f location] else []))

/-- ShaderCache::set_uniform glm::vec2 overload (shader_cache.cpp lines
245-251); the vector payload is an opaque parameter. -/
def ShaderCache.set_uniform_vec2 {α : Type} (s : CacheState)
    (loc_oracle : Nat → String → Int) (t : ShaderType)
    (uniform : ShaderUniformVariable) (vec : α) : Except String (List Event) :=
  match ShaderCache.use_shader_program s t with
  | .error e => .error e
  | .ok evs_use =>
    match ShaderCache.get_uniform_location s loc_oracle t uniform with
    | .error e => .error e
    | .ok (location, evs_loc) =>
      .ok (evs_use ++ evs_loc
           ++ (if location ≠ -1 then [Event.uniform2fv location] else []))

/-- ShaderCache::set_uniform (float x, float y) overload (shader_cache.cpp
lines 253-259). -/
def ShaderCache.set_uniform_2f {α : Type} (s : CacheState)
    (loc_oracle : Nat → String → Int) (t : ShaderType)
    (uniform : ShaderUniformVariable) (x y : α) : Except String (List Event) :=
  match ShaderCache.use_shader_program s t with
  | .error e => .error e
  | .ok evs_use =>
    match ShaderCache.get_uniform_location s loc_oracle t uniform with
    | .error e => .error e
    | .ok (location, evs_loc) =>
      .ok (evs_use ++ evs_loc
           ++ (if location ≠ -1 then [Event.uniform2f location] else []))

/-- ShaderCache::set_uniform glm::vec3 overload (shader_cache.cpp lines
261-267). -/
def ShaderCache.set_uniform_vec3 {α : Type} (s : CacheState)
    (loc_oracle : Nat → String → Int) (t : ShaderType)
    (uniform : ShaderUniformVariable) (vec : α) : Except String (List Event) :=
  match ShaderCache.use_shader_program s t with
  | .error e => .error e
  | .ok evs_use =>
    match ShaderCache.get_uniform_location s loc_oracle t uniform with
    | .error e => .error e
    | .ok (location, evs_loc) =>
      .ok (evs_use ++ evs_loc
           ++ (if location ≠ -1 then [Event.uniform3fv location] else []))

/-- ShaderCache::set_uniform (float x, float y, float z) overload
(shader_cache.cpp lines 269-275). -/
def ShaderCache.set_uniform_3f {α : Type} (s : CacheState)
    (loc_oracle : Nat → String → Int) (t : ShaderType)
    (uniform : ShaderUniformVariable) (x y z : α) : Except String (List Event) :=
  match ShaderCache.use_shader_program s t with
  | .error e => .error e
  | .ok evs_use =>
    match ShaderCache.get_uniform_location s loc_oracle t uniform with
    | .error e => .error e
    | .ok (location, evs_loc) =>
      .ok (evs_use ++ evs_loc
           ++ (if location ≠ -1 then [Event.uniform3f location] else []))

/-- ShaderCache::set_uniform glm::vec4 overload (shader_cache.cpp lines
277-283): glUniform4fv with count 1. -/
def ShaderCache.set_uniform_vec4 {α : Type} (s : CacheState)
    (loc_oracle : Nat → String → Int) (t : ShaderType)
    (uniform : ShaderUniformVariable) (vec : α) : Except String (List Event) :=
  match ShaderCache.use_shader_program s t with
  | .error e => .error e
  | .ok evs_use =>
    match ShaderCache.get_uniform_location s loc_oracle t uniform with
    | .error e => .error e
    | .ok (location, evs_loc) =>
      .ok (evs_use ++ evs_loc
           ++ (if location ≠ -1 then [Event.uniform4fv location 1] else []))

/-- ShaderCache::set_uniform std::vector of glm::vec4 overload
(shader_cache.cpp lines 285-302): a -1 location prints to stderr and returns
before any upload; an empty value vector prints a warning to stderr and
returns; otherwise glUniform4fv with the vector size as count. -/
def ShaderCache.set_uniform_vec4_array {α : Type} (s : CacheState)
    (loc_oracle : Nat → String → Int) (t : ShaderType)
    (uniform : ShaderUniformVariable) (values : List α) : Except String (List Event) :=
  match ShaderCache.use_shader_program s t with
  | .error e => .error e
  | .ok evs_use =>
    match ShaderCache.get_uniform_location s loc_oracle t uniform with
    | .error e => .error e
    | .ok (location, evs_loc) =>
      if location = -1 then
        match ShaderCache.get_uniform_name s uniform with
        | (name, evs_name) =>
          .ok (evs_use ++ evs_loc ++ evs_name
               ++ [Event.stderrPrint ("Uniform " ++ name ++ " not found in shader program.")])
      else if values.isEmpty then
        match ShaderCache.get_uniform_name s uniform with
        | (name, evs_name) =>
          .ok (evs_use ++ evs_loc ++ evs_name
               ++ [Event.stderrPrint
                     ("Warning: Attempting to set an empty vec4 array for uniform " ++ name)])
      else
        .ok (evs_use ++ evs_loc ++ [Event.uniform4fv location values.length])

/-- ShaderCache::set_uniform (float x, y, z, w) overload (shader_cache.cpp
lines 304-310). -/
def ShaderCache.set_uniform_4f {α : Type} (s : CacheState)
    (loc_oracle : Nat → String → Int) (t : ShaderType)
    (uniform : ShaderUniformVariable) (x y z w : α) : Except String (List Event) :=
  match ShaderCache.use_shader_program s t with
  | .error e => .error e
  | .ok evs_use =>
    match ShaderCache.get_uniform_location s loc_oracle t uniform with
    | .error e => .error e
    | .ok (location, evs_loc) =>
      .ok (evs_use ++ evs_loc
           ++ (if location ≠ -1 then [Event.uniform4f location] else []))

/-- ShaderCache::set_uniform glm::mat2 overload (shader_cache.cpp lines
312-318). -/
def ShaderCache.set_uniform_mat2 {α : Type} (s : CacheState)
    (loc_oracle : Nat → String → Int) (t : ShaderType)
    (uniform : ShaderUniformVariable) (mat : α) : Except String (List Event) :=
  match ShaderCache.use_shader_program s t with
  | .error e => .error e
  | .ok evs_use =>
    match ShaderCache.get_uniform_location s loc_oracle t uniform with
    | .error e => .error e
    | .ok (location, evs_loc) =>
      .ok (evs_use ++ evs_loc
           ++ (if location ≠ -1 then [Event.uniformMatrix2fv location] else []))

/-- ShaderCache::set_uniform glm::mat3 overload (shader_cache.cpp lines
320-326). -/
def ShaderCache.set_uniform_mat3 {α : Type} (s : CacheState)
    (loc_oracle : Nat → String → Int) (t : ShaderType)
    (uniform : ShaderUniformVariable) (mat : α) : Except String (List Event) :=
  match ShaderCache.use_shader_program s t with
  | .error e => .error e
  | .ok evs_use =>
    match ShaderCache.get_uniform_location s loc_oracle t uniform with
    | .error e => .error e
    | .ok (location, evs_loc) =>
      .ok (evs_use ++ evs_loc
           ++ (if location ≠ -1 then [Event.uniformMatrix3fv location] else []))

/-- ShaderCache::set_uniform glm::mat4 overload (shader_cache.cpp lines
328-334). -/
def ShaderCache.set_uniform_mat4 {α : Type} (s : CacheState)
    (loc_oracle : Nat → String → Int) (t : ShaderType)
    (uniform : ShaderUniformVariable) (mat : α) : Except String (List Event) :=
  match ShaderCache.use_shader_program s t with
  | .error e => .error e
  | .ok evs_use =>
    match ShaderCache.get_uniform_location s loc_oracle t uniform with
    | .error e => .error e
    | .ok (location, evs_loc) =>
      .ok (evs_use ++ evs_loc
           ++ (if location ≠ -1 then [Event.uniformMatrix4fv location] else []))

/-- True for the trace entries that upload a uniform value to the driver. -/
def Event.isUniformUpload : Event → Bool
  | .uniform1i _ => true
  | .uniform1f _ => true
  | .uniform2fv _ => true
  | .uniform2f _ => true
  | .uniform3fv _ => true
  | .uniform3f _ => true
  | .uniform4fv _ _ => true
  | .uniform4f _ => true
  | .uniformMatrix2fv _ => true
  | .uniformMatrix3fv _ => true
  | .uniformMatrix4fv _ => true
  | _ => false

/-- True for the trace entries that report a miss: a logger error line or a
stderr print. -/
def Event.isMissReport : Event → Bool
  | .logError _ => true
  | .stderrPrint _ => true
  | _ => false

/-- True when an Except value carries a result rather than a thrown error. -/
def exceptOk {ε α : Type} : Except ε α → Bool
  | .ok _ => true
  | .error _ => false

theorem lookupTable_append_of_some {α β : Type} [DecidableEq α] (m l : List (α × β))
    (t : α) (x : β) (h : lookupTable m t = some x) :
    lookupTable (m ++ l) t = some x := by
  induction m with
  | nil => simp [lookupTable] at h
  | cons p rest ih =>
    by_cases hp : p.1 = t
    · simpa [lookupTable, List.find?, hp] using h
    · have h' : lookupTable rest t = some x := by
        simpa [lookupTable, List.find?, hp] using h
      simpa [lookupTable, List.find?, hp] using ih h'

theorem lookupTable_append_of_none {α β : Type} [DecidableEq α] (m l : List (α × β))
    (t : α) (h : lookupTable m t = none) :
    lookupTable (m ++ l) t = lookupTable l t := by
  induction m with
  | nil => simp [lookupTable]
  | cons p rest ih =>
    by_cases hp : p.1 = t
    · simp [lookupTable, List.find?, hp] at h
    · have h' : lookupTable rest t = none := by
        simpa [lookupTable, List.find?, hp] using h
      simpa [lookupTable, List.find?, hp] using ih h'

theorem mapInsert_of_present {α β : Type} [DecidableEq α] (m : List (α × β)) (k : α)
    (v : β) (h : (lookupTable m k).isSome = true) : mapInsert m k v = m := by
  simp [mapInsert, h]

theorem lookupTable_mapInsert_preserve {α β : Type} [DecidableEq α] (m : List (α × β))
    (k t : α) (v x : β) (h : lookupTable m t = some x) :
    lookupTable (mapInsert m k v) t = some x := by
  unfold mapInsert
  by_cases hk : (lookupTable m k).isSome = true
  · simpa [hk] using h
  · simp only [hk, if_false]
    exact lookupTable_append_of_some m [(k, v)] t x h

theorem lookupTable_mapInsert_new {α β : Type} [DecidableEq α] (m : List (α × β))
    (k : α) (v : β) (h : lookupTable m k = none) :
    lookupTable (mapInsert m k v) k = some v := by
  unfold mapInsert
  have hk : (lookupTable m k).isSome = false := by simp [h]
  simp only [hk, Bool.false_eq_true, if_false]
  rw [lookupTable_append_of_none m [(k, v)] k h]
  simp [lookupTable, List.find?]

theorem lookupTable_mapInsert_isSome {α β : Type} [DecidableEq α] (m : List (α × β))
    (k : α) (v : β) : (lookupTable (mapInsert m k v) k).isSome = true := by
  cases h : lookupTable m k with
  | some x => simp [lookupTable_mapInsert_preserve m k k v x h]
  | none => simp [lookupTable_mapInsert_new m k v h]

theorem get_shader_program_of_some (s : CacheState) (t : ShaderType)
    (info : ShaderProgramInfo) (h : lookupTable s.created_shaders t = some info) :
    ShaderCache.get_shader_program s t = .ok info := by
  simp [ShaderCache.get_shader_program, h]

theorem get_shader_program_of_none (s : CacheState) (t : ShaderType)
    (h : lookupTable s.created_shaders t = none) :
    ShaderCache.get_shader_program s t
      = .error ("Shader program not found for type: " ++ shader_type_to_string t) := by
  simp [ShaderCache.get_shader_program, h]

/-- C1: the claim says create_shader_program overwrites a prior entry for the
same type; but the source stores the handle with `std::unordered_map::insert`
(shader_cache.cpp line 94), which keeps an existing entry.  With TEXT already
mapped to handle 5 and the driver returning program id 7, the call succeeds
yet the map still holds 5, not 7. -/
theorem C1_counterexample :
    (ShaderCache.create_shader_program
        { memberInitState with created_shaders := [(ShaderType.TEXT, ⟨5⟩)] }
        ShaderType.TEXT ⟨7, 8, 9, 10⟩).1 = .ok ()
    ∧ (ShaderCache.create_shader_program
        { memberInitState with created_shaders := [(ShaderType.TEXT, ⟨5⟩)] }
        ShaderType.TEXT ⟨7, 8, 9, 10⟩).2.1.created_shaders = [(ShaderType.TEXT, ⟨5⟩)]
    ∧ ¬ (lookupTable (ShaderCache.create_shader_program
          { memberInitState with created_shaders := [(ShaderType.TEXT, ⟨5⟩)] }
          ShaderType.TEXT ⟨7, 8, 9, 10⟩).2.1.created_shaders ShaderType.TEXT
         = some ⟨7⟩) := by
  refine ⟨rfl, rfl, ?_⟩
  decide

/-- C1 (amended): for a catalog type, create_shader_program stores the newly
linked handle under the type only when no entry exists; an already-present
entry is kept unchanged, because the handle is stored with map `insert`. -/
theorem C1_amended_create_insert_keeps_existing (s : CacheState) (t : ShaderType)
    (ids : FreshGLIds) (ci : ShaderCreationInfo)
    (hcat : lookupTable s.shader_catalog t = some ci) :
    (∀ old : ShaderProgramInfo, lookupTable s.created_shaders t = some old →
      lookupTable (ShaderCache.create_shader_program s t ids).2.1.created_shaders t
        = some old)
    ∧ (lookupTable s.created_shaders t = none →
      lookupTable (ShaderCache.create_shader_program s t ids).2.1.created_shaders t
        = some ⟨ids.program⟩) := by
  constructor
  · intro old hold
    simp only [ShaderCache.create_shader_program, hcat]
    exact lookupTable_mapInsert_preserve _ _ _ _ _ hold
  · intro hnone
    simp only [ShaderCache.create_shader_program, hcat]
    exact lookupTable_mapInsert_new _ _ _ hnone

/-- C1 witness: instantiating the amended theorem at the state of the
counterexample shows the prior TEXT handle 5 survives the second create. -/
theorem C1_amended_witness :
    lookupTable (ShaderCache.create_shader_program
        { memberInitState with created_shaders := [(ShaderType.TEXT, ⟨5⟩)] }
        ShaderType.TEXT ⟨7, 8, 9, 10⟩).2.1.created_shaders ShaderType.TEXT
      = some ⟨5⟩ :=
  (C1_amended_create_insert_keeps_existing
      { memberInitState with created_shaders := [(ShaderType.TEXT, ⟨5⟩)] }
      ShaderType.TEXT ⟨7, 8, 9, 10⟩
      ⟨"assets/shaders/text.vert", "assets/shaders/text.frag", ""⟩
      (by decide)).1 ⟨5⟩ (by decide)

/-- C3: create_shader_program on a type absent from the static catalog throws
the type-not-found runtime_error before any side effect: the whole state (in
particular the created-shaders map) is returned untouched and no driver call
is traced. -/
theorem C3_create_absent_type_raises (s : CacheState) (t : ShaderType)
    (ids : FreshGLIds) (h : lookupTable s.shader_catalog t = none) :
    ShaderCache.create_shader_program s t ids = (.error "Shader type not found", s, []) := by
  simp [ShaderCache.create_shader_program, h]

/-- C3 witness: code 7 is outside the catalog; create on the freshly
initialized state fails and changes nothing. -/
theorem C3_witness :
    ShaderCache.create_shader_program memberInitState ⟨7⟩ ⟨1, 2, 3, 4⟩
      = (.error "Shader type not found", memberInitState, []) :=
  C3_create_absent_type_raises memberInitState ⟨7⟩ ⟨1, 2, 3, 4⟩ (by decide)

/-- C2: the claim says all four static-table lookups fail fatally on an
absent key; but get_uniform_name (shader_cache.cpp lines 161-169) logs a
warning and returns the empty string — the default value the claim rules
out — and the caller continues: get_uniform_location on uniform code 11
(absent from the table) still returns a location normally instead of
propagating an error. -/
theorem C2_counterexample :
    lookupTable memberInitState.shader_uniform_variable_to_name ⟨11⟩ = none
    ∧ (ShaderCache.get_uniform_name memberInitState ⟨11⟩).1 = ""
    ∧ exceptOk (ShaderCache.get_uniform_location
        { memberInitState with created_shaders := [(ShaderType.TEXT, ⟨3⟩)] }
        (fun _ _ => 0) ShaderType.TEXT ⟨11⟩) = true := by
  refine ⟨by decide, rfl, rfl⟩

/-- C2 (amended): lookups into the path catalog, the attribute-layout table
and the attribute-name table fail fatally (raise and propagate) on an absent
enum key; the uniform-name lookup instead logs a warning and returns the
empty string without raising. -/
theorem C2_amended_static_table_failure_semantics (s : CacheState) :
    (∀ (t : ShaderType) (ids : FreshGLIds), lookupTable s.shader_catalog t = none →
      (ShaderCache.create_shader_program s t ids).1 = .error "Shader type not found")
    ∧ (∀ v : ShaderVertexAttributeVariable,
        lookupTable s.shader_vertex_attribute_to_glva_configuration v = none →
      (ShaderCache.get_gl_vertex_attribute_configuration_for_vertex_attribute_variable s v).1
        = .error "out_of_range")
    ∧ (∀ v : ShaderVertexAttributeVariable,
        lookupTable s.shader_vertex_attribute_variable_to_name v = none →
      (ShaderCache.get_vertex_attribute_variable_name s v).1 = .error "out_of_range")
    ∧ (∀ u : ShaderUniformVariable,
        lookupTable s.shader_uniform_variable_to_name u = none →
      ShaderCache.get_uniform_name s u
        = ("", [Event.logWarn ("Uniform variable enum " ++ toString u.code
            ++ " not found in allowed names.")])) := by
  refine ⟨?_, ?_, ?_, ?_⟩
  · intro t ids h
    simp [ShaderCache.create_shader_program, h]
  · intro v h
    simp [ShaderCache.get_gl_vertex_attribute_configuration_for_vertex_attribute_variable, h]
  · intro v h
    simp [ShaderCache.get_vertex_attribute_variable_name, h]
  · intro u h
    simp [ShaderCache.get_uniform_name, h]

/-- C2 witness: concrete absent keys — shader type 7, vertex attribute 4,
uniform 11 — exercise each branch of the amended theorem on the freshly
initialized state. -/
theorem C2_amended_witness :
    (ShaderCache.create_shader_program memberInitState ⟨7⟩ ⟨1, 2, 3, 4⟩).1
      = .error "Shader type not found"
    ∧ (ShaderCache.get_gl_vertex_attribute_configuration_for_vertex_attribute_variable
        memberInitState ⟨4⟩).1 = .error "out_of_range"
    ∧ (ShaderCache.get_vertex_attribute_variable_name memberInitState ⟨4⟩).1
      = .error "out_of_range"
    ∧ ShaderCache.get_uniform_name memberInitState ⟨11⟩
      = ("", [Event.logWarn ("Uniform variable enum "
          ++ toString (ShaderUniformVariable.mk 11).code ++ " not found in allowed names.")]) :=
  ⟨(C2_amended_static_table_failure_semantics memberInitState).1 ⟨7⟩ ⟨1, 2, 3, 4⟩ (by decide),
   (C2_amended_static_table_failure_semantics memberInitState).2.1 ⟨4⟩ (by decide),
   (C2_amended_static_table_failure_semantics memberInitState).2.2.1 ⟨4⟩ (by decide),
   (C2_amended_static_table_failure_semantics memberInitState).2.2.2 ⟨11⟩ (by decide)⟩

theorem create_shader_program_created (s : CacheState) (t : ShaderType)
    (ids : FreshGLIds) (h : (ShaderCache.create_shader_program s t ids).1 = .ok ()) :
    (lookupTable (ShaderCache.create_shader_program s t ids).2.1.created_shaders t).isSome
      = true := by
  cases hc : lookupTable s.shader_catalog t with
  | none => simp [ShaderCache.create_shader_program, hc] at h
  | some ci =>
    simp only [ShaderCache.create_shader_program, hc]
    exact lookupTable_mapInsert_isSome _ _ _

theorem create_shader_program_preserves (s : CacheState) (t : ShaderType)
    (ids : FreshGLIds) (u : ShaderType)
    (h : (lookupTable s.created_shaders u).isSome = true) :
    (lookupTable (ShaderCache.create_shader_program s t ids).2.1.created_shaders u).isSome
      = true := by
  cases hc : lookupTable s.shader_catalog t with
  | none => simpa [ShaderCache.create_shader_program, hc] using h
  | some ci =>
    obtain ⟨x, hx⟩ := Option.isSome_iff_exists.mp h
    simp only [ShaderCache.create_shader_program, hc]
    simp [lookupTable_mapInsert_preserve _ _ _ _ _ hx]

theorem createAll_created (ts : List ShaderType) (s : CacheState)
    (ids : Nat → FreshGLIds) (k : Nat) (t : ShaderType)
    (hok : (ShaderCache.createAll s ts ids k).1 = .ok ())
    (hsrc : t ∈ ts ∨ (lookupTable s.created_shaders t).isSome = true) :
    (lookupTable (ShaderCache.createAll s ts ids k).2.1.created_shaders t).isSome = true := by
  induction ts generalizing s k with
  | nil =>
    rcases hsrc with hmem | hs
    · simp at hmem
    · simpa [ShaderCache.createAll] using hs
  | cons t0 rest ih =>
    simp only [ShaderCache.createAll] at hok ⊢
    cases hc1 : (ShaderCache.create_shader_program s t0 (ids k)).1 with
    | error e => simp [hc1] at hok
    | ok unit_val =>
      cases unit_val
      simp only [hc1] at hok ⊢
      apply ih
      · exact hok
      · rcases hsrc with hmem | hs
        · rcases List.mem_cons.mp hmem with heq | hmem'
          · subst heq
            exact Or.inr (create_shader_program_created s t (ids k) hc1)
          · exact Or.inl hmem'
        · exact Or.inr (create_shader_program_preserves s t0 (ids k) t hs)

/-- C4: a ShaderType that is in the static catalog and in the requested list
handed to the constructor is retrievable afterwards: when the constructor
completes, get_shader_program on that type returns a program info instead of
throwing. -/
theorem C4_requested_type_retrievable (requested : List ShaderType)
    (ids : Nat → FreshGLIds) (t : ShaderType) (ci : ShaderCreationInfo) (s : CacheState)
    (hcat : lookupTable memberInitState.shader_catalog t = some ci)
    (hmem : t ∈ requested)
    (hctor : (ShaderCache.construct requested ids).1 = .ok s) :
    ∃ info, ShaderCache.get_shader_program s t = .ok info := by
  simp only [ShaderCache.construct] at hctor
  cases hca : (ShaderCache.createAll memberInitState requested ids 0).1 with
  | error e => simp [hca] at hctor
  | ok unit_val =>
    cases unit_val
    simp only [hca, ShaderCache.log_shader_program_info] at hctor
    have hsome := createAll_created requested memberInitState ids 0 t hca (Or.inl hmem)
    obtain ⟨info, hinfo⟩ := Option.isSome_iff_exists.mp hsome
    refine ⟨info, ?_⟩
    have hs : (ShaderCache.createAll memberInitState requested ids 0).2.1 = s :=
      Except.ok.inj hctor
    rw [← hs]
    exact get_shader_program_of_some _ t info hinfo

/-- C4 witness: a cache built with requested list containing only TEXT serves
a program for TEXT afterwards. -/
theorem C4_witness :
    ∃ info, ShaderCache.get_shader_program
      { memberInitState with created_shaders := [(ShaderType.TEXT, ⟨10⟩)] }
      ShaderType.TEXT = .ok info :=
  C4_requested_type_retrievable [ShaderType.TEXT] (fun _ => ⟨10, 20, 21, 0⟩)
    ShaderType.TEXT ⟨"assets/shaders/text.vert", "assets/shaders/text.frag", ""⟩
    { memberInitState with created_shaders := [(ShaderType.TEXT, ⟨10⟩)] }
    (by decide) (by simp) (by rfl)

/-- C5: when no entry for a type exists in the created-shaders map,
get_shader_program throws its not-found runtime_error, and every operation
that looks the program up — use_shader_program, the active-uniform printer,
the vertex-attribute configurator, get_uniform_location and all thirteen
set_uniform overloads — propagates that same error. -/
theorem C5_uncreated_type_raises_everywhere {α : Type} (s : CacheState) (t : ShaderType)
    (loc_oracle attrib_loc : Nat → String → Int) (u : ShaderUniformVariable)
    (v : ShaderVertexAttributeVariable) (num_uniforms : Nat) (uniform_name : Nat → String)
    (vao vbo : Nat) (b : Bool) (n : Int) (value : α) (values : List α)
    (h : lookupTable s.created_shaders t = none) :
    ShaderCache.get_shader_program s t
      = .error ("Shader program not found for type: " ++ shader_type_to_string t)
    ∧ ShaderCache.use_shader_program s t
      = .error ("Shader program not found for type: " ++ shader_type_to_string t)
    ∧ (ShaderCache.print_out_active_uniforms_in_shader s num_uniforms uniform_name t).1
      = .error ("Shader program not found for type: " ++ shader_type_to_string t)
    ∧ (ShaderCache.configure_vertex_attributes_for_drawables_vao s attrib_loc vao vbo t v).1
      = .error ("Shader program not found for type: " ++ shader_type_to_string t)
    ∧ ShaderCache.get_uniform_location s loc_oracle t u
      = .error ("Shader program not found for type: " ++ shader_type_to_string t)
    ∧ ShaderCache.set_uniform_bool s loc_oracle t u b
      = .error ("Shader program not found for type: " ++ shader_type_to_string t)
    ∧ ShaderCache.set_uniform_int s loc_oracle t u n
      = .error ("Shader program not found for type: " ++ shader_type_to_string t)
    ∧ ShaderCache.set_uniform_float s loc_oracle t u value
      = .error ("Shader program not found for type: " ++ shader_type_to_string t)
    ∧ ShaderCache.set_uniform_vec2 s loc_oracle t u value
      = .error ("Shader program not found for type: " ++ shader_type_to_string t)
    ∧ ShaderCache.set_uniform_2f s loc_oracle t u value value
      = .error ("Shader program not found for type: " ++ shader_type_to_string t)
    ∧ ShaderCache.set_uniform_vec3 s loc_oracle t u value
      = .error ("Shader program not found for type: " ++ shader_type_to_string t)
    ∧ ShaderCache.set_uniform_3f s loc_oracle t u value value value
      = .error ("Shader program not found for type: " ++ shader_type_to_string t)
    ∧ ShaderCache.set_uniform_vec4 s loc_oracle t u value
      = .error ("Shader program not found for type: " ++ shader_type_to_string t)
    ∧ ShaderCache.set_uniform_vec4_array s loc_oracle t u values
      = .error ("Shader program not found for type: " ++ shader_type_to_string t)
    ∧ ShaderCache.set_uniform_4f s loc_oracle t u value value value value
      = .error ("Shader program not found for type: " ++ shader_type_to_string t)
    ∧ ShaderCache.set_uniform_mat2 s loc_oracle t u value
      = .error ("Shader program not found for type: " ++ shader_type_to_string t)
    ∧ ShaderCache.set_uniform_mat3 s loc_oracle t u value
      = .error ("Shader program not found for type: " ++ shader_type_to_string t)
    ∧ ShaderCache.set_uniform_mat4 s loc_oracle t u value
      = .error ("Shader program not found for type: " ++ shader_type_to_string t) := by
  have hg := get_shader_program_of_none s t h
  refine ⟨hg, ?_, ?_, ?_, ?_, ?_, ?_, ?_, ?_, ?_, ?_, ?_, ?_, ?_, ?_, ?_, ?_, ?_⟩ <;>
    simp [ShaderCache.use_shader_program, ShaderCache.print_out_active_uniforms_in_shader,
          ShaderCache.configure_vertex_attributes_for_drawables_vao,
          ShaderCache.get_uniform_location, ShaderCache.set_uniform_bool,
          ShaderCache.set_uniform_int, ShaderCache.set_uniform_float,
          ShaderCache.set_uniform_vec2, ShaderCache.set_uniform_2f,
          ShaderCache.set_uniform_vec3, ShaderCache.set_uniform_3f,
          ShaderCache.set_uniform_vec4, ShaderCache.set_uniform_vec4_array,
          ShaderCache.set_uniform_4f, ShaderCache.set_uniform_mat2,
          ShaderCache.set_uniform_mat3, ShaderCache.set_uniform_mat4, hg]

/-- C5 witness: on the freshly initialized cache state nothing is created,
so getting and using TEXT both throw the not-found error. -/
theorem C5_witness :
    ShaderCache.get_shader_program memberInitState ShaderType.TEXT
      = .error ("Shader program not found for type: " ++ shader_type_to_string ShaderType.TEXT)
    ∧ ShaderCache.use_shader_program memberInitState ShaderType.TEXT
      = .error ("Shader program not found for type: " ++ shader_type_to_string ShaderType.TEXT) :=
  ⟨(C5_uncreated_type_raises_everywhere memberInitState ShaderType.TEXT
      (fun _ _ => 0) (fun _ _ => 0) ⟨0⟩ ⟨0⟩ 0 (fun _ => "") 0 0 true 0 (0 : Nat) [] rfl).1,
   (C5_uncreated_type_raises_everywhere memberInitState ShaderType.TEXT
      (fun _ _ => 0) (fun _ _ => 0) ⟨0⟩ ⟨0⟩ 0 (fun _ => "") 0 0 true 0 (0 : Nat) [] rfl).2.1⟩

theorem use_shader_program_of_some (s : CacheState) (t : ShaderType)
    (info : ShaderProgramInfo) (h : lookupTable s.created_shaders t = some info) :
    ShaderCache.use_shader_program s t = .ok [Event.useProgram info.id] := by
  simp [ShaderCache.use_shader_program, get_shader_program_of_some s t info h]

theorem get_uniform_name_no_upload (s : CacheState) (u : ShaderUniformVariable) :
    ((ShaderCache.get_uniform_name s u).2).all (fun e => !Event.isUniformUpload e) = true := by
  cases hn : lookupTable s.shader_uniform_variable_to_name u <;>
    simp [ShaderCache.get_uniform_name, hn, Event.isUniformUpload]

theorem get_uniform_location_result (s : CacheState) (loc_oracle : Nat → String → Int)
    (t : ShaderType) (u : ShaderUniformVariable) (info : ShaderProgramInfo)
    (hinfo : lookupTable s.created_shaders t = some info) :
    ShaderCache.get_uniform_location s loc_oracle t u
      = .ok (loc_oracle info.id (ShaderCache.get_uniform_name s u).1,
          (ShaderCache.get_uniform_name s u).2
          ++ [Event.getUniformLocation info.id (ShaderCache.get_uniform_name s u).1]
          ++ (if loc_oracle info.id (ShaderCache.get_uniform_name s u).1 = -1 then
                (ShaderCache.get_uniform_name s u).2
                ++ [Event.logError ("Uniform " ++ (ShaderCache.get_uniform_name s u).1
                      ++ " not found in shader program.")]
              else [])) := by
  rcases hgu : ShaderCache.get_uniform_name s u with ⟨name, evs1⟩
  by_cases hif : loc_oracle info.id name = -1 <;>
    simp [ShaderCache.get_uniform_location, get_shader_program_of_some s t info hinfo,
          hgu, hif]

theorem get_uniform_location_neg_one (s : CacheState) (loc_oracle : Nat → String → Int)
    (t : ShaderType) (u : ShaderUniformVariable) (info : ShaderProgramInfo)
    (hinfo : lookupTable s.created_shaders t = some info)
    (hloc : loc_oracle info.id (ShaderCache.get_uniform_name s u).1 = -1) :
    ∃ evs, ShaderCache.get_uniform_location s loc_oracle t u = .ok (-1, evs)
      ∧ evs.any Event.isMissReport = true
      ∧ evs.all (fun e => !Event.isUniformUpload e) = true := by
  have hres := get_uniform_location_result s loc_oracle t u info hinfo
  rw [hloc, if_pos rfl] at hres
  refine ⟨_, hres, ?_, ?_⟩
  · simp only [List.any_append, Bool.or_eq_true]
    exact Or.inr (Or.inr (by simp [Event.isMissReport]))
  · simp only [List.all_append, Bool.and_eq_true]
    exact ⟨⟨get_uniform_name_no_upload s u, by simp [Event.isUniformUpload]⟩,
           get_uniform_name_no_upload s u, by simp [Event.isUniformUpload]⟩

/-- A set_uniform call that handled a missing uniform binding the non-fatal
way: a normal return whose trace reports the miss and contains no uniform
upload call. -/
def missHandledOk (r : Except String (List Event)) : Prop :=
  ∃ evs, r = .ok evs ∧ evs.any Event.isMissReport = true
    ∧ evs.all (fun e => !Event.isUniformUpload e) = true

/-- C6: for a created type, when the driver reports no binding location for
the resolved uniform name (location -1), every one of the thirteen
set_uniform overloads logs the miss, uploads nothing, and returns without
raising. -/
theorem C6_missing_uniform_binding_nonfatal {α : Type} (s : CacheState)
    (loc_oracle : Nat → String → Int) (t : ShaderType) (u : ShaderUniformVariable)
    (info : ShaderProgramInfo) (b : Bool) (n : Int) (value : α) (values : List α)
    (hinfo : lookupTable s.created_shaders t = some info)
    (hloc : loc_oracle info.id (ShaderCache.get_uniform_name s u).1 = -1) :
    missHandledOk (ShaderCache.set_uniform_bool s loc_oracle t u b)
    ∧ missHandledOk (ShaderCache.set_uniform_int s loc_oracle t u n)
    ∧ missHandledOk (ShaderCache.set_uniform_float s loc_oracle t u value)
    ∧ missHandledOk (ShaderCache.set_uniform_vec2 s loc_oracle t u value)
    ∧ missHandledOk (ShaderCache.set_uniform_2f s loc_oracle t u value value)
    ∧ missHandledOk (ShaderCache.set_uniform_vec3 s loc_oracle t u value)
    ∧ missHandledOk (ShaderCache.set_uniform_3f s loc_oracle t u value value value)
    ∧ missHandledOk (ShaderCache.set_uniform_vec4 s loc_oracle t u value)
    ∧ missHandledOk (ShaderCache.set_uniform_vec4_array s loc_oracle t u values)
    ∧ missHandledOk (ShaderCache.set_uniform_4f s loc_oracle t u value value value value)
    ∧ missHandledOk (ShaderCache.set_uniform_mat2 s loc_oracle t u value)
    ∧ missHandledOk (ShaderCache.set_uniform_mat3 s loc_oracle t u value)
    ∧ missHandledOk (ShaderCache.set_uniform_mat4 s loc_oracle t u value) := by
  have hu := use_shader_program_of_some s t info hinfo
  obtain ⟨evs, hl, hany, hall⟩ := get_uniform_location_neg_one s loc_oracle t u info hinfo hloc
  refine ⟨?_, ?_, ?_, ?_, ?_, ?_, ?_, ?_, ?_, ?_, ?_, ?_, ?_⟩
  · refine ⟨[Event.useProgram info.id] ++ evs, ?_, ?_, ?_⟩
    · simp [ShaderCache.set_uniform_bool, hu, hl]
    · simp only [List.any_append, Bool.or_eq_true]
      exact Or.inr hany
    · simp only [List.all_append, Bool.and_eq_true]
      exact ⟨by simp [Event.isUniformUpload], hall⟩
  · refine ⟨[Event.useProgram info.id] ++ evs, ?_, ?_, ?_⟩
    · simp [ShaderCache.set_uniform_int, hu, hl]
    · simp only [List.any_append, Bool.or_eq_true]
      exact Or.inr hany
    · simp only [List.all_append, Bool.and_eq_true]
      exact ⟨by simp [Event.isUniformUpload], hall⟩
  · refine ⟨[Event.useProgram info.id] ++ evs, ?_, ?_, ?_⟩
    · simp [ShaderCache.set_uniform_float, hu, hl]
    · simp only [List.any_append, Bool.or_eq_true]
      exact Or.inr hany
    · simp only [List.all_append, Bool.and_eq_true]
      exact ⟨by simp [Event.isUniformUpload], hall⟩
  · refine ⟨[Event.useProgram info.id] ++ evs, ?_, ?_, ?_⟩
    · simp [ShaderCache.set_uniform_vec2, hu, hl]
    · simp only [List.any_append, Bool.or_eq_true]
      exact Or.inr hany
    · simp only [List.all_append, Bool.and_eq_true]
      exact ⟨by simp [Event.isUniformUpload], hall⟩
  · refine ⟨[Event.useProgram info.id] ++ evs, ?_, ?_, ?_⟩
    · simp [ShaderCache.set_uniform_2f, hu, hl]
    · simp only [List.any_append, Bool.or_eq_true]
      exact Or.inr hany
    · simp only [List.all_append, Bool.and_eq_true]
      exact ⟨by simp [Event.isUniformUpload], hall⟩
  · refine ⟨[Event.useProgram info.id] ++ evs, ?_, ?_, ?_⟩
    · simp [ShaderCache.set_uniform_vec3, hu, hl]
    · simp only [List.any_append, Bool.or_eq_true]
      exact Or.inr hany
    · simp only [List.all_append, Bool.and_eq_true]
      exact ⟨by simp [Event.isUniformUpload], hall⟩
  · refine ⟨[Event.useProgram info.id] ++ evs, ?_, ?_, ?_⟩
    · simp [ShaderCache.set_uniform_3f, hu, hl]
    · simp only [List.any_append, Bool.or_eq_true]
      exact Or.inr hany
    · simp only [List.all_append, Bool.and_eq_true]
      exact ⟨by simp [Event.isUniformUpload], hall⟩
  · refine ⟨[Event.useProgram info.id] ++ evs, ?_, ?_, ?_⟩
    · simp [ShaderCache.set_uniform_vec4, hu, hl]
    · simp only [List.any_append, Bool.or_eq_true]
      exact Or.inr hany
    · simp only [List.all_append, Bool.and_eq_true]
      exact ⟨by simp [Event.isUniformUpload], hall⟩
  · rcases hgu : ShaderCache.get_uniform_name s u with ⟨name, evsn⟩
    have hnn : evsn.all (fun e => !Event.isUniformUpload e) = true := by
      have h0 := get_uniform_name_no_upload s u
      rw [hgu] at h0
      exact h0
    refine ⟨[Event.useProgram info.id] ++ evs ++ evsn
        ++ [Event.stderrPrint ("Uniform " ++ name ++ " not found in shader program.")],
        ?_, ?_, ?_⟩
    · simp [ShaderCache.set_uniform_vec4_array, hu, hl, hgu]
    · simp only [List.any_append, Bool.or_eq_true]
      exact Or.inr (by simp [Event.isMissReport])
    · simp only [List.all_append, Bool.and_eq_true]
      exact ⟨⟨⟨by simp [Event.isUniformUpload], hall⟩, hnn⟩, by simp [Event.isUniformUpload]⟩
  · refine ⟨[Event.useProgram info.id] ++ evs, ?_, ?_, ?_⟩
    · simp [ShaderCache.set_uniform_4f, hu, hl]
    · simp only [List.any_append, Bool.or_eq_true]
      exact Or.inr hany
    · simp only [List.all_append, Bool.and_eq_true]
      exact ⟨by simp [Event.isUniformUpload], hall⟩
  · refine ⟨[Event.useProgram info.id] ++ evs, ?_, ?_, ?_⟩
    · simp [ShaderCache.set_uniform_mat2, hu, hl]
    · simp only [List.any_append, Bool.or_eq_true]
      exact Or.inr hany
    · simp only [List.all_append, Bool.and_eq_true]
      exact ⟨by simp [Event.isUniformUpload], hall⟩
  · refine ⟨[Event.useProgram info.id] ++ evs, ?_, ?_, ?_⟩
    · simp [ShaderCache.set_uniform_mat3, hu, hl]
    · simp only [List.any_append, Bool.or_eq_true]
      exact Or.inr hany
    · simp only [List.all_append, Bool.and_eq_true]
      exact ⟨by simp [Event.isUniformUpload], hall⟩
  · refine ⟨[Event.useProgram info.id] ++ evs, ?_, ?_, ?_⟩
    · simp [ShaderCache.set_uniform_mat4, hu, hl]
    · simp only [List.any_append, Bool.or_eq_true]
      exact Or.inr hany
    · simp only [List.all_append, Bool.and_eq_true]
      exact ⟨by simp [Event.isUniformUpload], hall⟩

/-- C6 witness: a cache holding program 1 for type 0, a driver that reports
location -1 for every uniform name: the bool overload logs, skips the upload
and returns normally. -/
theorem C6_witness :
    missHandledOk (ShaderCache.set_uniform_bool
      { memberInitState with
          created_shaders := [(ShaderType.CWL_V_TRANSFORMATION_WITH_SOLID_COLOR, ⟨1⟩)] }
      (fun _ _ => -1) ShaderType.CWL_V_TRANSFORMATION_WITH_SOLID_COLOR
      ShaderUniformVariable.CAMERA_TO_CLIP true) :=
  (C6_missing_uniform_binding_nonfatal
    { memberInitState with
        created_shaders := [(ShaderType.CWL_V_TRANSFORMATION_WITH_SOLID_COLOR, ⟨1⟩)] }
    (fun _ _ => -1) ShaderType.CWL_V_TRANSFORMATION_WITH_SOLID_COLOR
    ShaderUniformVariable.CAMERA_TO_CLIP ⟨1⟩ true 0 (0 : Nat) []
    (by decide) (by decide)).1

/-- A set_uniform call whose very first driver action is activating the
program with the given handle: the trace of a normal return starts with that
use-program call, before any location lookup or upload. -/
def startsWithUse (r : Except String (List Event)) (pid : Nat) : Prop :=
  ∃ rest, r = .ok (Event.useProgram pid :: rest)

/-- C7: for a created type, every one of the thirteen set_uniform overloads
issues the use-program call for the cached handle first — before the uniform
location lookup and before any value upload — so callers need not call
use_shader_program themselves. -/
theorem C7_set_uniform_activates_program_first {α : Type} (s : CacheState)
    (loc_oracle : Nat → String → Int) (t : ShaderType) (u : ShaderUniformVariable)
    (info : ShaderProgramInfo) (b : Bool) (n : Int) (value : α) (values : List α)
    (hinfo : lookupTable s.created_shaders t = some info) :
    startsWithUse (ShaderCache.set_uniform_bool s loc_oracle t u b) info.id
    ∧ startsWithUse (ShaderCache.set_uniform_int s loc_oracle t u n) info.id
    ∧ startsWithUse (ShaderCache.set_uniform_float s loc_oracle t u value) info.id
    ∧ startsWithUse (ShaderCache.set_uniform_vec2 s loc_oracle t u value) info.id
    ∧ startsWithUse (ShaderCache.set_uniform_2f s loc_oracle t u value value) info.id
    ∧ startsWithUse (ShaderCache.set_uniform_vec3 s loc_oracle t u value) info.id
    ∧ startsWithUse (ShaderCache.set_uniform_3f s loc_oracle t u value value value) info.id
    ∧ startsWithUse (ShaderCache.set_uniform_vec4 s loc_oracle t u value) info.id
    ∧ startsWithUse (ShaderCache.set_uniform_vec4_array s loc_oracle t u values) info.id
    ∧ startsWithUse (ShaderCache.set_uniform_4f s loc_oracle t u value value value value) info.id
    ∧ startsWithUse (ShaderCache.set_uniform_mat2 s loc_oracle t u value) info.id
    ∧ startsWithUse (ShaderCache.set_uniform_mat3 s loc_oracle t u value) info.id
    ∧ startsWithUse (ShaderCache.set_uniform_mat4 s loc_oracle t u value) info.id := by
  have hu := use_shader_program_of_some s t info hinfo
  have hres := get_uniform_location_result s loc_oracle t u info hinfo
  refine ⟨?_, ?_, ?_, ?_, ?_, ?_, ?_, ?_, ?_, ?_, ?_, ?_, ?_⟩
  all_goals
    cases hl : ShaderCache.get_uniform_location s loc_oracle t u with
    | error e => rw [hres] at hl; simp at hl
    | ok p => ?_
  case _ =>
    obtain ⟨L, evsl⟩ := p
    exact ⟨evsl ++ (if L ≠ -1 then [Event.uniform1i L] else []),
      by simp [ShaderCache.set_uniform_bool, hu, hl]⟩
  case _ =>
    obtain ⟨L, evsl⟩ := p
    exact ⟨evsl ++ (if L ≠ -1 then [Event.uniform1i L] else []),
      by simp [ShaderCache.set_uniform_int, hu, hl]⟩
  case _ =>
    obtain ⟨L, evsl⟩ := p
    exact ⟨evsl ++ (if L ≠ -1 then [Event.uniform1f L] else []),
      by simp [ShaderCache.set_uniform_float, hu, hl]⟩
  case _ =>
    obtain ⟨L, evsl⟩ := p
    exact ⟨evsl ++ (if L ≠ -1 then [Event.uniform2fv L] else []),
      by simp [ShaderCache.set_uniform_vec2, hu, hl]⟩
  case _ =>
    obtain ⟨L, evsl⟩ := p
    exact ⟨evsl ++ (if L ≠ -1 then [Event.uniform2f L] else []),
      by simp [ShaderCache.set_uniform_2f, hu, hl]⟩
  case _ =>
    obtain ⟨L, evsl⟩ := p
    exact ⟨evsl ++ (if L ≠ -1 then [Event.uniform3fv L] else []),
      by simp [ShaderCache.set_uniform_vec3, hu, hl]⟩
  case _ =>
    obtain ⟨L, evsl⟩ := p
    exact ⟨evsl ++ (if L ≠ -1 then [Event.uniform3f L] else []),
      by simp [ShaderCache.set_uniform_3f, hu, hl]⟩
  case _ =>
    obtain ⟨L, evsl⟩ := p
    exact ⟨evsl ++ (if L ≠ -1 then [Event.uniform4fv L 1] else []),
      by simp [ShaderCache.set_uniform_vec4, hu, hl]⟩
  case _ =>
    obtain ⟨L, evsl⟩ := p
    rcases hgu : ShaderCache.get_uniform_name s u with ⟨name, evsn⟩
    by_cases hL : L = -1
    · exact ⟨evsl ++ evsn
        ++ [Event.stderrPrint ("Uniform " ++ name ++ " not found in shader program.")],
        by simp [ShaderCache.set_uniform_vec4_array, hu, hl, hgu, hL]⟩
    · by_cases hv : values.isEmpty
      · exact ⟨evsl ++ evsn
          ++ [Event.stderrPrint
              ("Warning: Attempting to set an empty vec4 array for uniform " ++ name)],
          by simp [ShaderCache.set_uniform_vec4_array, hu, hl, hgu, hL, hv]⟩
      · exact ⟨evsl ++ [Event.uniform4fv L values.length],
          by simp [ShaderCache.set_uniform_vec4_array, hu, hl, hgu, hL, hv]⟩
  case _ =>
    obtain ⟨L, evsl⟩ := p
    exact ⟨evsl ++ (if L ≠ -1 then [Event.uniform4f L] else []),
      by simp [ShaderCache.set_uniform_4f, hu, hl]⟩
  case _ =>
    obtain ⟨L, evsl⟩ := p
    exact ⟨evsl ++ (if L ≠ -1 then [Event.uniformMatrix2fv L] else []),
      by simp [ShaderCache.set_uniform_mat2, hu, hl]⟩
  case _ =>
    obtain ⟨L, evsl⟩ := p
    exact ⟨evsl ++ (if L ≠ -1 then [Event.uniformMatrix3fv L] else []),
      by simp [ShaderCache.set_uniform_mat3, hu, hl]⟩
  case _ =>
    obtain ⟨L, evsl⟩ := p
    exact ⟨evsl ++ (if L ≠ -1 then [Event.uniformMatrix4fv L] else []),
      by simp [ShaderCache.set_uniform_mat4, hu, hl]⟩

/-- C7 witness: with program 1 cached for type 0 and a driver reporting
location 3, the bool overload's trace begins by activating program 1. -/
theorem C7_witness :
    startsWithUse (ShaderCache.set_uniform_bool
      { memberInitState with
          created_shaders := [(ShaderType.CWL_V_TRANSFORMATION_WITH_SOLID_COLOR, ⟨1⟩)] }
      (fun _ _ => 3) ShaderType.CWL_V_TRANSFORMATION_WITH_SOLID_COLOR
      ShaderUniformVariable.CAMERA_TO_CLIP true) 1 :=
  (C7_set_uniform_activates_program_first
    { memberInitState with
        created_shaders := [(ShaderType.CWL_V_TRANSFORMATION_WITH_SOLID_COLOR, ⟨1⟩)] }
    (fun _ _ => 3) ShaderType.CWL_V_TRANSFORMATION_WITH_SOLID_COLOR
    ShaderUniformVariable.CAMERA_TO_CLIP ⟨1⟩ true 0 (0 : Nat) [] (by decide)).1

/-- C8: on every normally-returning path of
configure_vertex_attributes_for_drawables_vao — for a created type and an
attribute with a registered layout and name, whichever pointer call the
component data type selects — the last vertex-array binding the operation
issues is binding 0: the VAO is left unbound on exit. -/
theorem C8_configure_leaves_vao_unbound (s : CacheState)
    (attrib_loc : Nat → String → Int) (vao vbo : Nat) (t : ShaderType)
    (v : ShaderVertexAttributeVariable)
    (h : (ShaderCache.configure_vertex_attributes_for_drawables_vao
            s attrib_loc vao vbo t v).1 = .ok ()) :
    ((ShaderCache.configure_vertex_attributes_for_drawables_vao
        s attrib_loc vao vbo t v).2).getLast? = some (Event.bindVertexArray 0) := by
  unfold ShaderCache.configure_vertex_attributes_for_drawables_vao at h ⊢
  cases hg : ShaderCache.get_shader_program s t with
  | error e =>
    rw [hg] at h
    simp at h
  | ok info =>
    rw [hg] at h
    rcases hc : ShaderCache.get_gl_vertex_attribute_configuration_for_vertex_attribute_variable
        s v with ⟨rc, evs1⟩
    rw [hc] at h
    cases rc with
    | error e => simp at h
    | ok config =>
      rcases hn : ShaderCache.get_vertex_attribute_variable_name s v with ⟨rn, evs2⟩
      rw [hn] at h
      cases rn with
      | error e => simp at h
      | ok svav_name =>
        simp only []
        rw [List.getLast?_append_cons]
        rfl

/-- C8 witness: a cache holding program 1 for type 0, configuring the
POSITION attribute of VAO 5 / VBO 6: the call succeeds and its trace ends by
binding vertex array 0. -/
theorem C8_witness :
    ((ShaderCache.configure_vertex_attributes_for_drawables_vao
        { memberInitState with
            created_shaders := [(ShaderType.CWL_V_TRANSFORMATION_WITH_SOLID_COLOR, ⟨1⟩)] }
        (fun _ _ => 3) 5 6 ShaderType.CWL_V_TRANSFORMATION_WITH_SOLID_COLOR
        ShaderVertexAttributeVariable.POSITION).2).getLast?
      = some (Event.bindVertexArray 0) :=
  C8_configure_leaves_vao_unbound
    { memberInitState with
        created_shaders := [(ShaderType.CWL_V_TRANSFORMATION_WITH_SOLID_COLOR, ⟨1⟩)] }
    (fun _ _ => 3) 5 6 ShaderType.CWL_V_TRANSFORMATION_WITH_SOLID_COLOR
    ShaderVertexAttributeVariable.POSITION (by rfl)

/-- The five static configuration tables of a cache state, bundled so that
immutability statements can compare them in one equation. -/
def tablesOf (s : CacheState) :
    List (ShaderVertexAttributeVariable × GLVertexAttributeConfiguration)
    × List (ShaderUniformVariable × String)
    × List (ShaderType × ShaderCreationInfo)
    × List (ShaderType × List ShaderVertexAttributeVariable)
    × List (ShaderVertexAttributeVariable × String) :=
  (s.shader_vertex_attribute_to_glva_configuration,
   s.shader_uniform_variable_to_name,
   s.shader_catalog,
   s.shader_to_used_vertex_attribute_variables,
   s.shader_vertex_attribute_variable_to_name)

theorem tablesOf_create (s : CacheState) (t : ShaderType) (ids : FreshGLIds) :
    tablesOf (ShaderCache.create_shader_program s t ids).2.1 = tablesOf s := by
  cases hc : lookupTable s.shader_catalog t <;>
    simp [ShaderCache.create_shader_program, hc, tablesOf]

theorem tablesOf_createAll (ts : List ShaderType) (s : CacheState)
    (ids : Nat → FreshGLIds) (k : Nat) :
    tablesOf (ShaderCache.createAll s ts ids k).2.1 = tablesOf s := by
  induction ts generalizing s k with
  | nil => simp [ShaderCache.createAll]
  | cons t0 rest ih =>
    simp only [ShaderCache.createAll]
    cases hc1 : (ShaderCache.create_shader_program s t0 (ids k)).1 with
    | error e =>
      simpa [hc1] using tablesOf_create s t0 (ids k)
    | ok unit_val =>
      cases unit_val
      simp only [hc1]
      rw [ih]
      exact tablesOf_create s t0 (ids k)

/-- C9: the five static tables are fixed at construction and no cache
operation changes them — create_shader_program and the constructor loop
touch only the created-shaders map, a completed constructor leaves the
tables exactly as the member initializers populated them, and the two
diagnostic operations return the state identically (they only emit
output). -/
theorem C9_tables_fixed_operations_read_only :
    (∀ (s : CacheState) (t : ShaderType) (ids : FreshGLIds),
      tablesOf (ShaderCache.create_shader_program s t ids).2.1 = tablesOf s)
    ∧ (∀ (s : CacheState) (ts : List ShaderType) (ids : Nat → FreshGLIds) (k : Nat),
      tablesOf (ShaderCache.createAll s ts ids k).2.1 = tablesOf s)
    ∧ (∀ (requested : List ShaderType) (ids : Nat → FreshGLIds) (s : CacheState),
      (ShaderCache.construct requested ids).1 = .ok s →
      tablesOf s = tablesOf memberInitState)
    ∧ (∀ s : CacheState, (ShaderCache.log_shader_program_info s).1 = s)
    ∧ (∀ (s : CacheState) (num_uniforms : Nat) (uniform_name : Nat → String) (t : ShaderType),
      (ShaderCache.print_out_active_uniforms_in_shader s num_uniforms uniform_name t).2.1
        = s) := by
  refine ⟨tablesOf_create, fun s ts ids k => tablesOf_createAll ts s ids k, ?_,
    fun s => rfl, ?_⟩
  · intro requested ids s hctor
    simp only [ShaderCache.construct] at hctor
    cases hca : (ShaderCache.createAll memberInitState requested ids 0).1 with
    | error e => simp [hca] at hctor
    | ok unit_val =>
      cases unit_val
      simp only [hca, ShaderCache.log_shader_program_info] at hctor
      have hs : (ShaderCache.createAll memberInitState requested ids 0).2.1 = s :=
        Except.ok.inj hctor
      rw [← hs]
      exact tablesOf_createAll requested memberInitState ids 0
  · intro s num_uniforms uniform_name t
    cases hg : ShaderCache.get_shader_program s t <;>
      simp [ShaderCache.print_out_active_uniforms_in_shader, hg]

/-- C9 witness: the cache built with requested list containing only TEXT
carries tables identical to the member-initializer tables. -/
theorem C9_witness :
    tablesOf { memberInitState with created_shaders := [(ShaderType.TEXT, ⟨10⟩)] }
      = tablesOf memberInitState :=
  C9_tables_fixed_operations_read_only.2.2.1 [ShaderType.TEXT] (fun _ => ⟨10, 20, 21, 0⟩)
    { memberInitState with created_shaders := [(ShaderType.TEXT, ⟨10⟩)] } (by rfl)

/-- C10: the two textured-lighting shader types are in the static catalog —
a cache requested with one of them creates and serves a program for it —
yet they are absent from the used-vertex-attributes table, so
get_used_vertex_attribute_variables_for_shader throws out_of_range for them
even on such a cache. -/
theorem C10_catalog_types_without_used_attributes :
    (lookupTable memberInitState.shader_catalog
        ShaderType.CWL_V_TRANSFORMATION_WITH_TEXTURES_AMBIENT_LIGHTING).isSome = true
    ∧ (lookupTable memberInitState.shader_catalog
        ShaderType.CWL_V_TRANSFORMATION_WITH_TEXTURES_AMBIENT_AND_DIFFUSE_LIGHTING).isSome
      = true
    ∧ lookupTable memberInitState.shader_to_used_vertex_attribute_variables
        ShaderType.CWL_V_TRANSFORMATION_WITH_TEXTURES_AMBIENT_LIGHTING = none
    ∧ lookupTable memberInitState.shader_to_used_vertex_attribute_variables
        ShaderType.CWL_V_TRANSFORMATION_WITH_TEXTURES_AMBIENT_AND_DIFFUSE_LIGHTING = none
    ∧ (ShaderCache.construct
        [ShaderType.CWL_V_TRANSFORMATION_WITH_TEXTURES_AMBIENT_LIGHTING]
        (fun _ => ⟨9, 1, 2, 3⟩)).1
      = .ok { memberInitState with
          created_shaders :=
            [(ShaderType.CWL_V_TRANSFORMATION_WITH_TEXTURES_AMBIENT_LIGHTING, ⟨9⟩)] }
    ∧ ShaderCache.get_shader_program
        { memberInitState with
            created_shaders :=
              [(ShaderType.CWL_V_TRANSFORMATION_WITH_TEXTURES_AMBIENT_LIGHTING, ⟨9⟩)] }
        ShaderType.CWL_V_TRANSFORMATION_WITH_TEXTURES_AMBIENT_LIGHTING = .ok ⟨9⟩
    ∧ (ShaderCache.get_used_vertex_attribute_variables_for_shader
        { memberInitState with
            created_shaders :=
              [(ShaderType.CWL_V_TRANSFORMATION_WITH_TEXTURES_AMBIENT_LIGHTING, ⟨9⟩)] }
        ShaderType.CWL_V_TRANSFORMATION_WITH_TEXTURES_AMBIENT_LIGHTING).1
      = .error "out_of_range"
    ∧ (ShaderCache.get_used_vertex_attribute_variables_for_shader memberInitState
        ShaderType.CWL_V_TRANSFORMATION_WITH_TEXTURES_AMBIENT_AND_DIFFUSE_LIGHTING).1
      = .error "out_of_range" :=
  ⟨by decide, by decide, by decide, by decide, by rfl, by rfl, by rfl, by rfl⟩
